import Mathlib

/-!
Verification development for the yougile_bot repository.

The definitions below are a shallow embedding, translated from the Go
sources, of the parts of the program that the verified properties talk
about: the generic retry engine (`retryOperation` in internal/api), the
Yougile API client operations (`GetTasks`, `CreateTask`, `UpdateTask`,
`UploadAttachment`, `AddComment`), the post-creation verification loop
(`verifyTask`, `handleVerificationFailure`, `notifyError` in
internal/bot) and the notification formatter (`formatTaskNotification`
in main).

Modelling conventions:
  * Go strings are modelled as their UTF-8 byte sequences (`GoStr :=
    List Nat`), because the Go code indexes and measures strings in
    bytes (`len`, slicing).
  * Go `time.Duration` / `time.Time` values are modelled as `Nat` / `Int`
    (nanoseconds); only their ordering and arithmetic matter here.
  * The HTTP world is an oracle: a function from the attempt index to
    the outcome the remote service produces for that attempt (network
    error, a status code, a response body in decoded form).  The client
    code is translated faithfully against that oracle.
  * Effects on the shared metrics sink are modelled as a list of emitted
    metric events; effects of the bot layer (task creation calls,
    uploads, timer scheduling, chat messages) are modelled as explicit
    output fields of the step functions.
-/

namespace YougileBot

/-- Bytes of a Go string (Go strings are byte sequences). -/
abbrev GoStr : Type := List Nat

/-- UTF-8 encoding of one Unicode code point, as byte values. -/
def utf8Bytes (c : Nat) : List Nat :=
  if c < 0x80 then [c]
  else if c < 0x800 then [0xC0 + c / 64, 0x80 + c % 64]
  else if c < 0x10000 then [0xE0 + c / 4096, 0x80 + c / 64 % 64, 0x80 + c % 64]
  else [0xF0 + c / 262144, 0x80 + c / 4096 % 64, 0x80 + c / 64 % 64, 0x80 + c % 64]

/-- The UTF-8 bytes of a Lean string literal: the byte sequence the
corresponding Go string literal holds. -/
def strBytes (s : String) : GoStr :=
  (s.data.map (fun c => utf8Bytes c.toNat)).flatten

/-- Translation of Go `strings.HasPrefix s p` (does `s` start with `p`). -/
def goStartsWith : GoStr → GoStr → Bool
  | _, [] => true
  | [], _ :: _ => false
  | a :: s, b :: p => a = b && goStartsWith s p

/-- Translation of Go `strings.Contains s sub`. -/
def goContains : GoStr → GoStr → Bool
  | [], sub => goStartsWith [] sub
  | a :: t, sub => goStartsWith (a :: t) sub || goContains t sub

/-- Decimal digits (ASCII) of a natural number; fuel-based helper. -/
def natDigitsAux : Nat → Nat → List Nat
  | 0, _ => []
  | fuel + 1, n =>
    if n < 10 then [48 + n]
    else natDigitsAux fuel (n / 10) ++ [48 + n % 10]

/-- Decimal ASCII rendering of a natural number (Go `fmt` `%d`). -/
def natDigits (n : Nat) : List Nat := natDigitsAux (n + 1) n

/-- Decimal ASCII rendering of an integer (Go `fmt` `%d`). -/
def intBytes (i : Int) : GoStr :=
  if i < 0 then 45 :: natDigits i.natAbs else natDigits i.natAbs

/-! ## Data model (internal/models) -/

/-- Go `models.TaskStatus` is a string type; modelled as bytes. -/
abbrev TaskStatus : Type := GoStr

def taskStatusNew : TaskStatus := strBytes "new"
def taskStatusInWork : TaskStatus := strBytes "in_work"
def taskStatusDone : TaskStatus := strBytes "done"
def taskStatusCancelled : TaskStatus := strBytes "cancelled"

/-- Go `models.AttachmentType` is a string type; modelled as bytes. -/
abbrev AttachmentType : Type := GoStr

def attachmentTypeImage : AttachmentType := strBytes "image"
def attachmentTypeFile : AttachmentType := strBytes "file"

/-- Go `models.Attachment`. -/
structure Attachment where
  id : GoStr
  type : AttachmentType
  url : GoStr
  createdAt : Int
  fileID : GoStr
deriving DecidableEq

/-- Go `models.Comment`. -/
structure Comment where
  id : Int
  taskID : Int
  authorID : GoStr
  text : GoStr
  attachments : List Attachment
  createdAt : Int
  updatedAt : Int
deriving DecidableEq

/-- Go `models.Task`.  The two `float64` fields (`Estimate`,
`TimeSpent`) are omitted: no operation verified here reads or writes
them, and floating point is out of scope of the embedding. -/
structure Task where
  id : Int
  boardID : Int
  title : GoStr
  description : GoStr
  status : TaskStatus
  done : Bool
  parentID : Int
  createdAt : Int
  updatedAt : Int
  dueDate : Int
  priority : Int
  assignee : GoStr
  labels : List GoStr
  comments : List Comment
  attachments : List GoStr
deriving DecidableEq

/-- Go `models.UserRole` is a string type; modelled as bytes. -/
abbrev UserRole : Type := GoStr

def roleAdmin : UserRole := strBytes "admin"
def roleUser : UserRole := strBytes "user"

/-- Go `models.User`. -/
structure User where
  telegramID : Int
  username : GoStr
  firstName : GoStr
  lastName : GoStr
  position : GoStr
  buildingAddress : GoStr
  roomNumber : GoStr
  address : GoStr
  role : UserRole
  approved : Bool
  addressChange : Bool
deriving DecidableEq

/-- Go `api.TaskCache` (internal/api): the process-local task snapshot. -/
structure TaskCache where
  tasks : List Task
  updatedAt : Int
  expiration : Int
deriving DecidableEq

/-- Events emitted towards the shared `metrics.Metrics` sink.  The
duration argument of `UpdateLatency` is irrelevant to the verified
properties and is not recorded. -/
inductive MetricEvent where
  | incAPIRequests
  | incAPIErrors
  | updateLatency
deriving DecidableEq

/-- Number of occurrences of one metric event in an emitted trace. -/
def countEvent (e : MetricEvent) (l : List MetricEvent) : Nat :=
  (l.filter (fun x => x = e)).length

/-! ## Retry engine (`retryOperation`, internal/api part_001 lines 39-69) -/

/-- The client retry policy fields of `api.Client`:
`retryCount`, `retryWait`, `maxRetryElapsed` (durations in ns). -/
structure RetryPolicy where
  retryCount : Nat
  retryWait : Nat
  maxRetryElapsed : Nat
deriving DecidableEq

/-- The defaults installed by `api.NewClient`: 3 attempts, 500 ms base
wait, 10 s wall-clock budget. -/
def defaultRetryPolicy : RetryPolicy :=
  { retryCount := 3, retryWait := 500000000, maxRetryElapsed := 10000000000 }

/-- Errors surfaced by `retryOperation`: an error produced by the
operation itself, the wall-clock-budget error
(`превышено максимальное время повторов`), or the generic
`операция не удалась после попыток` error when no attempt produced an
error. -/
inductive RetryErr (ε : Type) where
  | fromOp (e : ε)
  | elapsedExceeded
  | exhausted
deriving DecidableEq

/-- What `retryOperation` returns after the loop when no terminal
outcome occurred: the last stored error, else the generic error. -/
def retryFinish {ε : Type} : Option ε → Except (RetryErr ε) Unit
  | some e => .error (.fromOp e)
  | none => .error .exhausted

/-- Whether the wall-clock budget check after attempt `i` lets the loop
continue: Go `!(c.maxRetryElapsed > 0 && time.Since(start) > c.maxRetryElapsed)`
where `elapsed i` is `time.Since(start)` observed after attempt `i`. -/
def budgetOk (pol : RetryPolicy) (elapsed : Nat → Nat) (i : Nat) : Prop :=
  ¬(0 < pol.maxRetryElapsed ∧ pol.maxRetryElapsed < elapsed i)

instance (pol : RetryPolicy) (elapsed : Nat → Nat) (i : Nat) :
    Decidable (budgetOk pol elapsed i) := by
  unfold budgetOk; infer_instance

/-- The loop body of `retryOperation`.  `op i s` is the effectful
operation at attempt index `i` over program state `s` (the closure state
the Go operation mutates), returning the Go `(done, err)` pair and the
new state; `elapsed i` is the wall-clock time observed at the budget
check after attempt `i`.  Returns the result, the final state, and the
number of attempts that ran. -/
def retryAux {σ ε : Type} (pol : RetryPolicy) (op : Nat → σ → (Bool × Option ε) × σ)
    (elapsed : Nat → Nat) :
    Nat → Nat → σ → Option ε → Except (RetryErr ε) Unit × σ × Nat
  | 0, attempt, s, lastErr => (retryFinish lastErr, s, attempt)
  | fuel + 1, attempt, s, lastErr =>
    match op attempt s with
    | ((true, none), s') => (.ok (), s', attempt + 1)
    | ((true, some e), s') => (.error (.fromOp e), s', attempt + 1)
    | ((false, none), s') =>
      if 0 < pol.maxRetryElapsed ∧ pol.maxRetryElapsed < elapsed attempt then
        (.error .elapsedExceeded, s', attempt + 1)
      else
        retryAux pol op elapsed fuel (attempt + 1) s' lastErr
    | ((false, some e), s') =>
      if 0 < pol.maxRetryElapsed ∧ pol.maxRetryElapsed < elapsed attempt then
        (.error .elapsedExceeded, s', attempt + 1)
      else
        retryAux pol op elapsed fuel (attempt + 1) s' (some e)

/-- `retryOperation` run from the start: result, final state, attempts. -/
def retryRun {σ ε : Type} (pol : RetryPolicy) (op : Nat → σ → (Bool × Option ε) × σ)
    (elapsed : Nat → Nat) (init : σ) : Except (RetryErr ε) Unit × σ × Nat :=
  retryAux pol op elapsed pol.retryCount 0 init none

/-- The error/success value `retryOperation` returns. -/
def retryOperation {σ ε : Type} (pol : RetryPolicy) (op : Nat → σ → (Bool × Option ε) × σ)
    (elapsed : Nat → Nat) (init : σ) : Except (RetryErr ε) Unit :=
  (retryRun pol op elapsed init).1

/-- The state the operation closure holds when `retryOperation` returns. -/
def retryFinalState {σ ε : Type} (pol : RetryPolicy) (op : Nat → σ → (Bool × Option ε) × σ)
    (elapsed : Nat → Nat) (init : σ) : σ :=
  (retryRun pol op elapsed init).2.1

/-- How many times `retryOperation` invoked the operation. -/
def retryAttempts {σ ε : Type} (pol : RetryPolicy) (op : Nat → σ → (Bool × Option ε) × σ)
    (elapsed : Nat → Nat) (init : σ) : Nat :=
  (retryRun pol op elapsed init).2.2

/-- A stateless operation (one whose closure mutates nothing), lifted to
the state-threaded form `retryOperation` expects. -/
def liftOp {ε : Type} (op : Nat → Bool × Option ε) : Nat → Unit → (Bool × Option ε) × Unit :=
  fun i _ => (op i, ())

/-- `retryOperation` on a stateless operation. -/
def retryOperationPure {ε : Type} (pol : RetryPolicy) (op : Nat → Bool × Option ε)
    (elapsed : Nat → Nat) : Except (RetryErr ε) Unit :=
  retryOperation pol (liftOp op) elapsed ()

/-- Attempt count of `retryOperation` on a stateless operation. -/
def retryAttemptsPure {ε : Type} (pol : RetryPolicy) (op : Nat → Bool × Option ε)
    (elapsed : Nat → Nat) : Nat :=
  retryAttempts pol (liftOp op) elapsed ()

/-- The last error produced by attempts `0 .. n-1` of a stateless
operation (the value Go keeps in `lastErr`, absent a budget abort). -/
def lastOpErr {ε : Type} (op : Nat → Bool × Option ε) : Nat → Option ε
  | 0 => none
  | n + 1 =>
    match (op n).2 with
    | some e => some e
    | none => lastOpErr op n

/-! ## API client errors -/

/-- The error shapes the API client surfaces (fidelity note: each Go
error is a formatted string; only its kind and the embedded status code
matter to the verified properties, so the bodies carried in
unexpected-status errors are not recorded). -/
inductive ApiErr where
  | reqBuild
  | transport
  | emptyResp
  | decode
  | multipartBuild
  | status (code : Nat)
  | statusRetry (code : Nat)
deriving DecidableEq

/-! ## CreateTask (internal/api part_001 lines 215-275) -/

/-- Decoded form of a response body offered to `CreateTask`'s
`{data:{id}}` decoder: either the decoder errors, or it yields the
`Data.ID` field (`0` when the field is absent, Go zero value). -/
inductive CreateBody where
  | decodeFail
  | decoded (id : Int)
deriving DecidableEq

/-- What the HTTP world does on one `CreateTask` attempt. -/
inductive CreateOutcome where
  | reqErr
  | netErr
  | nilResp
  | resp (status : Nat) (body : CreateBody)
deriving DecidableEq

/-- The operation closure `CreateTask` hands to `retryOperation`.  The
closure state is the caller's task object (mutated by reference) paired
with the metric events emitted so far. -/
def createTaskOp (responses : Nat → CreateOutcome) :
    Nat → Task × List MetricEvent → (Bool × Option ApiErr) × (Task × List MetricEvent)
  | i, (task, evts) =>
    match responses i with
    | .reqErr => ((true, some .reqBuild), (task, evts))
    | .netErr => ((false, some .transport), (task, evts))
    | .nilResp => ((false, some .emptyResp), (task, evts))
    | .resp status body =>
      if status = 201 then
        match body with
        | .decodeFail => ((true, none), (task, evts ++ [.incAPIErrors]))
        | .decoded id =>
          if id ≠ 0 then ((true, none), ({ task with id := id }, evts))
          else ((true, none), (task, evts))
      else if 500 ≤ status ∨ status = 429 then
        ((false, some (.statusRetry status)), (task, evts))
      else
        ((true, some (.status status)), (task, evts))

/-- Result of a `CreateTask` call: the returned error/success, the
caller's task object after the call (its `ID` may have been written),
and the metric events emitted. -/
structure CreateResult where
  result : Except (RetryErr ApiErr) Unit
  task : Task
  events : List MetricEvent

/-- `Client.CreateTask` (fidelity note: `json.Marshal` of a task cannot
fail for the task values representable here, so the serialization-error
early return is not a reachable branch of the model). -/
def CreateTask (pol : RetryPolicy) (responses : Nat → CreateOutcome)
    (elapsed : Nat → Nat) (task : Task) : CreateResult :=
  let r := retryRun pol (createTaskOp responses) elapsed (task, [])
  { result := r.1, task := r.2.1.1, events := r.2.1.2 }

/-! ## UpdateTask (internal/api part_001 lines 277-313) -/

/-- What the HTTP world does on one `UpdateTask` attempt. -/
inductive UpdateOutcome where
  | reqErr
  | netErr
  | resp (status : Nat)
deriving DecidableEq

/-- The operation closure `UpdateTask` hands to `retryOperation`; its
state is the metric-event trace (never appended to: the Go body contains
no metrics calls). -/
def updateTaskOp (responses : Nat → UpdateOutcome) :
    Nat → List MetricEvent → (Bool × Option ApiErr) × List MetricEvent
  | i, evts =>
    match responses i with
    | .reqErr => ((true, some .reqBuild), evts)
    | .netErr => ((false, some .transport), evts)
    | .resp status =>
      if status = 200 then ((true, none), evts)
      else if 500 ≤ status ∨ status = 429 then ((false, some (.statusRetry status)), evts)
      else ((true, some (.status status)), evts)

/-- Result of an `UpdateTask` / `UploadAttachment` / `AddComment` call:
the returned error/success and the metric events emitted. -/
structure SimpleResult where
  result : Except (RetryErr ApiErr) Unit
  events : List MetricEvent

/-- `Client.UpdateTask`. -/
def UpdateTask (pol : RetryPolicy) (responses : Nat → UpdateOutcome)
    (elapsed : Nat → Nat) (_task : Task) : SimpleResult :=
  let r := retryRun pol (updateTaskOp responses) elapsed []
  { result := r.1, events := r.2.1 }

/-! ## UploadAttachment (internal/api part_001 lines 315-382) -/

/-- What one `UploadAttachment` attempt runs into (the multipart body is
rebuilt from scratch on every attempt; `buildErr` covers the
part-construction / encoding failures of that rebuild). -/
inductive UploadOutcome where
  | buildErr
  | reqErr
  | netErr
  | nilResp
  | resp (status : Nat)
deriving DecidableEq

/-- The operation closure `UploadAttachment` hands to `retryOperation`. -/
def uploadAttachmentOp (responses : Nat → UploadOutcome) :
    Nat → List MetricEvent → (Bool × Option ApiErr) × List MetricEvent
  | i, evts =>
    match responses i with
    | .buildErr => ((true, some .multipartBuild), evts)
    | .reqErr => ((true, some .reqBuild), evts)
    | .netErr => ((false, some .transport), evts)
    | .nilResp => ((false, some .emptyResp), evts)
    | .resp status =>
      if status = 201 then ((true, none), evts)
      else if 500 ≤ status ∨ status = 429 then ((false, some (.statusRetry status)), evts)
      else ((true, some (.status status)), evts)

/-- `Client.UploadAttachment`.  The attachment metadata and file bytes
only feed the multipart body, whose content the HTTP oracle abstracts. -/
def UploadAttachment (pol : RetryPolicy) (responses : Nat → UploadOutcome)
    (elapsed : Nat → Nat) (_taskID : Int) (_attachment : Attachment)
    (_data : List Nat) : SimpleResult :=
  let r := retryRun pol (uploadAttachmentOp responses) elapsed []
  { result := r.1, events := r.2.1 }

/-! ## AddComment (internal/api part_001 lines 384-420) -/

/-- What the HTTP world does on one `AddComment` attempt. -/
inductive CommentOutcome where
  | reqErr
  | netErr
  | nilResp
  | resp (status : Nat)
deriving DecidableEq

/-- The operation closure `AddComment` hands to `retryOperation`. -/
def addCommentOp (responses : Nat → CommentOutcome) :
    Nat → List MetricEvent → (Bool × Option ApiErr) × List MetricEvent
  | i, evts =>
    match responses i with
    | .reqErr => ((true, some .reqBuild), evts)
    | .netErr => ((false, some .transport), evts)
    | .nilResp => ((false, some .emptyResp), evts)
    | .resp status =>
      if status = 201 then ((true, none), evts)
      else if 500 ≤ status ∨ status = 429 then ((false, some (.statusRetry status)), evts)
      else ((true, some (.status status)), evts)

/-- `Client.AddComment`. -/
def AddComment (pol : RetryPolicy) (responses : Nat → CommentOutcome)
    (elapsed : Nat → Nat) (_taskID : Int) (_comment : Comment) : SimpleResult :=
  let r := retryRun pol (addCommentOp responses) elapsed []
  { result := r.1, events := r.2.1 }

/-! ## GetTasks (internal/api part_001 lines 123-212) -/

/-- Decoded form of a body offered to `GetTasks`'s `{data:[...]}`
decoder. -/
inductive GetBody where
  | decodeFail
  | decoded (tasks : List Task)
deriving DecidableEq

/-- What the HTTP world does on one iteration of `GetTasks`'s inline
retry loop. -/
inductive GetOutcome where
  | reqErr
  | netErr
  | resp (status : Nat) (body : GetBody)
deriving DecidableEq

/-- How the fetch phase of `GetTasks` ends: the loop broke on a 200
response whose (still open) body is available, or the call returns an
error. -/
inductive FetchOut where
  | success (body : GetBody)
  | failure (e : ApiErr)
deriving DecidableEq

/-- The inline retry loop of `GetTasks` plus the code after it.  `errV`
and `respV` mirror the Go variables `err` and `resp` (only the status of
the last, already closed, response is relevant): when the loop exhausts
its attempts, a pending `err` is returned; with no response at all the
`пустой ответ` error is returned; and with a closed retryable-status
response left in `resp`, the decoder reads the closed body and fails
(decode error).  The second `Nat` result counts network sends. -/
def getTasksFetch (pol : RetryPolicy) (responses : Nat → GetOutcome) :
    Nat → Nat → Nat → Option ApiErr → Option Nat → FetchOut × Nat
  | 0, _attempt, calls, errV, respV =>
    (match errV with
     | some e => .failure e
     | none =>
       match respV with
       | none => .failure .emptyResp
       | some _ => .failure .decode, calls)
  | fuel + 1, attempt, calls, _errV, _respV =>
    match responses attempt with
    | .reqErr => (.failure .reqBuild, calls)
    | .netErr => getTasksFetch pol responses fuel (attempt + 1) (calls + 1) (some .transport) none
    | .resp status body =>
      if status = 200 then (.success body, calls + 1)
      else if 500 ≤ status ∨ status = 429 then
        getTasksFetch pol responses fuel (attempt + 1) (calls + 1) none (some status)
      else (.failure (.status status), calls + 1)

/-- Result of a `GetTasks` call: the returned value or error, the cache
after the call, the metric events emitted, and the number of network
sends performed. -/
structure GetTasksResult where
  result : Except ApiErr (List Task)
  cache : TaskCache
  events : List MetricEvent
  netCalls : Nat

/-- `Client.GetTasks` (metrics sink present, as wired in `main`): a
read-through cache check first, then the inline retry loop, then decode
and cache refresh.  `now` is the call time (`time.Now()`); the `limit`
argument only feeds the URL. -/
def GetTasks (pol : RetryPolicy) (responses : Nat → GetOutcome) (now : Int)
    (cache : TaskCache) (_limit : Int) : GetTasksResult :=
  if cache.tasks ≠ [] ∧ now - cache.updatedAt < cache.expiration then
    { result := .ok cache.tasks, cache := cache,
      events := [.incAPIRequests, .updateLatency], netCalls := 0 }
  else
    match getTasksFetch pol responses pol.retryCount 0 0 none none with
    | (.failure e, n) =>
      { result := .error e, cache := cache,
        events := [.incAPIRequests, .updateLatency], netCalls := n }
    | (.success .decodeFail, n) =>
      { result := .error .decode, cache := cache,
        events := [.incAPIRequests, .updateLatency], netCalls := n }
    | (.success (.decoded ts), n) =>
      { result := .ok ts,
        cache := { tasks := ts, updatedAt := now, expiration := cache.expiration },
        events := [.incAPIRequests, .updateLatency], netCalls := n }

/-! ## Slice aliasing model for the defensive copy in GetTasks -/

/-- A Go slice with the identity of its backing array: `ref` names the
allocation, `data` its contents. -/
structure Slice where
  ref : Nat
  data : List Task
deriving DecidableEq

/-- Translation of the `make([]models.Task, len(src)); copy(dst, src)`
idiom in `GetTasks`: the copy lives in a fresh allocation but holds the
same elements. -/
def goCopySlice (src : Slice) (freshRef : Nat) : Slice :=
  { ref := freshRef, data := src.data }

/-- Writing through a slice reference: the heap maps each allocation to
its contents. -/
def heapWrite (heap : Nat → List Task) (r : Nat) (xs : List Task) : Nat → List Task :=
  fun q => if q = r then xs else heap q

/-! ## Client-state lifts (the cache component of `api.Client`)

The write operations of the client have access to `c.cache` but their
bodies never read or write it (see part_001: `CreateTask`, `UpdateTask`,
`UploadAttachment`, `AddComment` contain no use of `c.cache` or `c.mu`),
so their action on the cache component of the client state is the
identity. -/

/-- `CreateTask` viewed with the client's cache state. -/
def CreateTaskClient (pol : RetryPolicy) (responses : Nat → CreateOutcome)
    (elapsed : Nat → Nat) (task : Task) (cache : TaskCache) : CreateResult × TaskCache :=
  (CreateTask pol responses elapsed task, cache)

/-- `UpdateTask` viewed with the client's cache state. -/
def UpdateTaskClient (pol : RetryPolicy) (responses : Nat → UpdateOutcome)
    (elapsed : Nat → Nat) (task : Task) (cache : TaskCache) : SimpleResult × TaskCache :=
  (UpdateTask pol responses elapsed task, cache)

/-- `UploadAttachment` viewed with the client's cache state. -/
def UploadAttachmentClient (pol : RetryPolicy) (responses : Nat → UploadOutcome)
    (elapsed : Nat → Nat) (taskID : Int) (attachment : Attachment) (data : List Nat)
    (cache : TaskCache) : SimpleResult × TaskCache :=
  (UploadAttachment pol responses elapsed taskID attachment data, cache)

/-- `AddComment` viewed with the client's cache state. -/
def AddCommentClient (pol : RetryPolicy) (responses : Nat → CommentOutcome)
    (elapsed : Nat → Nat) (taskID : Int) (comment : Comment)
    (cache : TaskCache) : SimpleResult × TaskCache :=
  (AddComment pol responses elapsed taskID comment, cache)

/-! ## Verification loop (internal/bot/task_handlers.go) -/

/-- Go `bot.TaskVerification`: the record tracking one in-flight
post-creation check. -/
structure TaskVerification where
  originalTask : Task
  originalSender : User
  originalContent : GoStr
  hasImage : Bool
  imageData : List Nat
  retryCount : Nat
  createdAt : Int
deriving DecidableEq

/-- `startTaskVerification`: builds the verification record (retry
counter 0) and schedules one delayed check (`time.AfterFunc`, 2
minutes); returns the record and the number of checks scheduled. -/
def startTaskVerification (task : Task) (sender : User) (content : GoStr)
    (hasImage : Bool) (imageData : List Nat) (now : Int) : TaskVerification × Nat :=
  ({ originalTask := task, originalSender := sender, originalContent := content,
     hasImage := hasImage, imageData := imageData, retryCount := 0, createdAt := now }, 1)

/-- The reason strings passed to `handleVerificationFailure` /
`notifyError`, abstracted to their kind (the verified properties never
inspect the formatted text). -/
inductive FailReason where
  | fetchError
  | notFound
  | contentMismatch
  | attachmentMissing
  | recreateError
  | reuploadError
deriving DecidableEq

/-- A chat message sent by the error-notification path, identified by
its recipient (the formatted message text is not inspected by any
verified property). -/
inductive Notif where
  | toSender (chatID : Int)
  | toAdmin (chatID : Int)
deriving DecidableEq

/-- `notifyError`: one message to the original sender, then one message
to every stored user whose role is admin (`storage.GetUsers` is passed
in as a list; send failures are only logged and do not change the
fan-out). -/
def notifyError (v : TaskVerification) (users : List User) : List Notif :=
  .toSender v.originalSender.telegramID ::
    (users.filter (fun u => u.role = roleAdmin)).map (fun u => .toAdmin u.telegramID)

/-- The marker substring `повторно исправлено` that the recheck requires
in the title. -/
def recoveredMark : GoStr := strBytes "повторно исправлено"

/-- The suffix appended by `fmt.Sprintf("%s (повторно исправлено)", title)`. -/
def recoveredSuffix : GoStr := strBytes " (повторно исправлено)"

/-- The corrective task built on the first verification failure: the
original task with the marker suffix appended to its title. -/
def correctiveTask (v : TaskVerification) : Task :=
  { v.originalTask with title := v.originalTask.title ++ recoveredSuffix }

/-- The attachment identifier `fmt.Sprintf("retry_%d", time.Now().Unix())`
generated for the corrective re-upload. -/
def retryAttachmentID (nowUnix : Int) : GoStr := strBytes "retry_" ++ intBytes nowUnix

/-- The attachment record built for the corrective re-upload
(`models.Attachment{ID: retry_<unix>, Type: image}`; remaining fields
keep their Go zero values). -/
def retryAttachment (nowUnix : Int) : Attachment :=
  { id := retryAttachmentID nowUnix, type := attachmentTypeImage,
    url := [], createdAt := 0, fileID := [] }

/-- `verifyTaskContent`: title equality, the recovery marker on a
recheck, and the original free text as a substring of the remote
description. -/
def verifyTaskContent (task : Task) (v : TaskVerification) : Bool :=
  if task.title ≠ v.originalTask.title then false
  else if 0 < v.retryCount ∧ goContains task.title recoveredMark = false then false
  else if v.originalContent ≠ [] ∧ goContains task.description v.originalContent = false then
    false
  else true

/-- `verifyTaskAttachments`: the remote task lists at least one
attachment. -/
def verifyTaskAttachments (task : Task) : Bool :=
  0 < task.attachments.length

/-- Environment of one verification step: the shared client (policy and
cache), the HTTP oracles for the `GetTasks`, corrective `CreateTask` and
corrective `UploadAttachment` calls it may make, the current times, and
the stored users for the escalation fan-out. -/
structure VerifyEnv where
  pol : RetryPolicy
  getResponses : Nat → GetOutcome
  now : Int
  cache : TaskCache
  createResponses : Nat → CreateOutcome
  createElapsed : Nat → Nat
  uploadResponses : Nat → UploadOutcome
  uploadElapsed : Nat → Nat
  nowUnix : Int
  users : List User

/-- Observable outcome of one verification step: the tasks handed to
`CreateTask`, the corrective uploads performed, how many further checks
were scheduled (`time.AfterFunc` calls), the notification fan-out, and
the verification record afterwards (Go mutates it in place). -/
structure VerifyStepResult where
  created : List Task
  uploaded : List (Int × Attachment)
  scheduled : Nat
  notifs : List Notif
  verification : TaskVerification

/-- `handleVerificationFailure`: on the first failure (retry counter 0)
create the marker-suffixed task, re-upload a held image under a fresh
`retry_<unix>` identifier, bump the counter, replace the tracked task
and schedule one recheck — falling back to `notifyError` if the
corrective create or upload fails; on a later failure, `notifyError`
only. -/
def handleVerificationFailure (env : VerifyEnv) (v : TaskVerification)
    (_reason : FailReason) : VerifyStepResult :=
  if v.retryCount = 0 then
    let newTask := correctiveTask v
    let cr := CreateTask env.pol env.createResponses env.createElapsed newTask
    match cr.result with
    | .error _ =>
      { created := [newTask], uploaded := [], scheduled := 0,
        notifs := notifyError v env.users, verification := v }
    | .ok _ =>
      if v.hasImage then
        let att := retryAttachment env.nowUnix
        let up := UploadAttachment env.pol env.uploadResponses env.uploadElapsed
          cr.task.id att v.imageData
        match up.result with
        | .error _ =>
          { created := [newTask], uploaded := [(cr.task.id, att)], scheduled := 0,
            notifs := notifyError v env.users, verification := v }
        | .ok _ =>
          { created := [newTask], uploaded := [(cr.task.id, att)], scheduled := 1,
            notifs := [],
            verification := { v with retryCount := v.retryCount + 1, originalTask := cr.task } }
      else
        { created := [newTask], uploaded := [], scheduled := 1, notifs := [],
          verification := { v with retryCount := v.retryCount + 1, originalTask := cr.task } }
  else
    { created := [], uploaded := [], scheduled := 0,
      notifs := notifyError v env.users, verification := v }

/-- `verifyTask`: fetch up to 100 tasks through the cache-aware
`GetTasks`; on a fetch error notify and stop; otherwise locate the task
by identifier and run the content/attachment checks, delegating any
mismatch to `handleVerificationFailure`. -/
def verifyTask (env : VerifyEnv) (v : TaskVerification) : VerifyStepResult :=
  match (GetTasks env.pol env.getResponses env.now env.cache 100).result with
  | .error _ =>
    { created := [], uploaded := [], scheduled := 0,
      notifs := notifyError v env.users, verification := v }
  | .ok tasks =>
    match tasks.find? (fun t => t.id = v.originalTask.id) with
    | none => handleVerificationFailure env v .notFound
    | some foundTask =>
      if verifyTaskContent foundTask v = false then
        handleVerificationFailure env v .contentMismatch
      else if v.hasImage ∧ verifyTaskAttachments foundTask = false then
        handleVerificationFailure env v .attachmentMissing
      else
        { created := [], uploaded := [], scheduled := 0, notifs := [], verification := v }

/-! ## Notification formatting (`formatTaskNotification`, main) -/

/-- The part of the notification before the optional description
section: status emoji, title, priority, optional due date and assignee.
Go's `time.Format("02.01.2006")` is modelled as an opaque date renderer
passed in as `renderDate`. -/
def notificationHeader (renderDate : Int → GoStr) (task : Task) : GoStr :=
  let status := if task.done then strBytes "✅" else strBytes "🔵"
  let priority :=
    if task.priority = 1 then strBytes "⚡️ Высокий"
    else if task.priority = 2 then strBytes "⭐️ Средний"
    else strBytes "📌 Обычный"
  let dueDate :=
    if task.dueDate ≠ 0 then strBytes "\n📅 Срок: " ++ renderDate task.dueDate else []
  let assignee :=
    if task.assignee ≠ [] then strBytes "\n👤 Исполнитель: " ++ task.assignee else []
  status ++ strBytes " Новая задача\n📎 " ++ task.title ++ strBytes "\n🏷 " ++
    priority ++ dueDate ++ assignee

/-- `formatTaskNotification`: the header, then — for a non-empty
description — the description cut at 200 (Go `len` and slicing count
bytes) with a `...` marker when it was cut. -/
def formatTaskNotification (renderDate : Int → GoStr) (task : Task) : GoStr :=
  let msg := notificationHeader renderDate task
  if task.description ≠ [] then
    let descLen := if 200 < task.description.length then 200 else task.description.length
    let withDesc := msg ++ strBytes "\n\n📝 " ++ task.description.take descLen
    if 200 < task.description.length then withDesc ++ strBytes "..." else withDesc
  else msg

/-! ## Character-based reading of the truncation boundary

The boundary claim speaks of the first 200 characters of the
description.  The following two definitions formalise that wording
(they follow the claim, not the source, and exist to be compared with
the byte-based behaviour of `formatTaskNotification`). -/

/-- A UTF-8 continuation byte. -/
def utf8IsCont (b : Nat) : Bool := 128 ≤ b && b < 192

/-- Number of characters (UTF-8 encoded code points) in a byte string. -/
def utf8Len (s : GoStr) : Nat :=
  (List.filter (fun b => !utf8IsCont b) s).length

/-- The bytes of the first `n` characters of a UTF-8 byte string. -/
def utf8Take : Nat → GoStr → GoStr
  | _, [] => []
  | n, b :: rest =>
    if utf8IsCont b then b :: utf8Take n rest
    else
      match n with
      | 0 => []
      | m + 1 => b :: utf8Take m rest

/-- The description clause of the boundary claim, taken literally with
characters: a description of at most 200 characters appears unchanged
with no marker, a longer one appears cut to its first 200 characters
with the marker. -/
def descriptionClaimHolds (renderDate : Int → GoStr) (task : Task) : Prop :=
  task.description ≠ [] →
    (utf8Len task.description ≤ 200 →
      formatTaskNotification renderDate task =
        notificationHeader renderDate task ++ strBytes "\n\n📝 " ++ task.description) ∧
    (200 < utf8Len task.description →
      formatTaskNotification renderDate task =
        notificationHeader renderDate task ++ strBytes "\n\n📝 " ++
          utf8Take 200 task.description ++ strBytes "...")

theorem retryAux_attempts_le {σ ε : Type} (pol : RetryPolicy)
    (op : Nat → σ → (Bool × Option ε) × σ) (elapsed : Nat → Nat) :
    ∀ (fuel attempt : Nat) (s : σ) (le : Option ε),
      (retryAux pol op elapsed fuel attempt s le).2.2 ≤ attempt + fuel := by
  intro fuel
  induction fuel with
  | zero => intro attempt s le; simp [retryAux]
  | succ n ih =>
    intro attempt s le
    simp only [retryAux]
    rcases h : op attempt s with ⟨⟨done, err⟩, s'⟩
    cases done <;> cases err <;> simp only []
    · split
      · show attempt + 1 ≤ attempt + (n + 1)
        omega
      · exact (ih (attempt + 1) s' le).trans (by omega)
    · rename_i e
      split
      · show attempt + 1 ≤ attempt + (n + 1)
        omega
      · exact (ih (attempt + 1) s' (some e)).trans (by omega)
    · show attempt + 1 ≤ attempt + (n + 1)
      omega
    · show attempt + 1 ≤ attempt + (n + 1)
      omega

/-- lastErr after processing attempts attempt..attempt+k-1 with constant state s. -/
def errAcc {σ ε : Type} (op : Nat → σ → (Bool × Option ε) × σ) (s : σ) :
    Nat → Nat → Option ε → Option ε
  | _attempt, 0, le => le
  | attempt, k + 1, le =>
    errAcc op s (attempt + 1) k
      (match (op attempt s).1.2 with
       | some e => some e
       | none => le)

theorem retryAux_reach {σ ε : Type} (pol : RetryPolicy)
    (op : Nat → σ → (Bool × Option ε) × σ) (elapsed : Nat → Nat) :
    ∀ (k fuel attempt : Nat) (s : σ) (le : Option ε),
      k ≤ fuel →
      (∀ j, j < k → (op (attempt + j) s).1.1 = false ∧ budgetOk pol elapsed (attempt + j) ∧
        (op (attempt + j) s).2 = s) →
      retryAux pol op elapsed fuel attempt s le =
        retryAux pol op elapsed (fuel - k) (attempt + k) s (errAcc op s attempt k le) := by
  intro k
  induction k with
  | zero => intro fuel attempt s le _ _; simp [errAcc]
  | succ m ih =>
    intro fuel attempt s le hk hsteps
    obtain ⟨f, rfl⟩ : ∃ f, fuel = f + 1 := ⟨fuel - 1, by omega⟩
    obtain ⟨h0false, h0budget, h0state⟩ := hsteps 0 (by omega)
    simp only [Nat.add_zero] at h0false h0budget h0state
    have hstep : retryAux pol op elapsed (f + 1) attempt s le =
        retryAux pol op elapsed f (attempt + 1) s
          (match (op attempt s).1.2 with
           | some e => some e
           | none => le) := by
      rcases h : op attempt s with ⟨⟨done, err⟩, s'⟩
      rw [h] at h0false h0state
      simp only at h0false h0state
      subst h0false
      subst h0state
      simp only [retryAux]
      rw [h]
      cases err with
      | none =>
        simp only []
        rw [if_neg h0budget]
      | some e =>
        simp only []
        rw [if_neg h0budget]
    rw [hstep]
    rw [ih f (attempt + 1) s _ (by omega)
      (fun j hj => by
        have := hsteps (j + 1) (by omega)
        constructor
        · have h1 := this.1
          rw [show attempt + (j + 1) = attempt + 1 + j by omega] at h1
          exact h1
        constructor
        · have h2 := this.2.1
          rw [show attempt + (j + 1) = attempt + 1 + j by omega] at h2
          exact h2
        · have h3 := this.2.2
          rw [show attempt + (j + 1) = attempt + 1 + j by omega] at h3
          exact h3)]
    have e1 : f + 1 - (m + 1) = f - m := by omega
    have e2 : attempt + 1 + m = attempt + (m + 1) := by omega
    rw [e1, e2]
    rfl

theorem retryAux_step_ok {σ ε : Type} (pol : RetryPolicy)
    (op : Nat → σ → (Bool × Option ε) × σ) (elapsed : Nat → Nat)
    (fuel attempt : Nat) (s s' : σ) (le : Option ε)
    (hf : 0 < fuel) (h : op attempt s = ((true, none), s')) :
    retryAux pol op elapsed fuel attempt s le = (.ok (), s', attempt + 1) := by
  obtain ⟨f, rfl⟩ : ∃ f, fuel = f + 1 := ⟨fuel - 1, by omega⟩
  simp only [retryAux]
  rw [h]

theorem retryAux_step_err {σ ε : Type} (pol : RetryPolicy)
    (op : Nat → σ → (Bool × Option ε) × σ) (elapsed : Nat → Nat)
    (fuel attempt : Nat) (s s' : σ) (le : Option ε) (e : ε)
    (hf : 0 < fuel) (h : op attempt s = ((true, some e), s')) :
    retryAux pol op elapsed fuel attempt s le = (.error (.fromOp e), s', attempt + 1) := by
  obtain ⟨f, rfl⟩ : ∃ f, fuel = f + 1 := ⟨fuel - 1, by omega⟩
  simp only [retryAux]
  rw [h]

theorem retryAux_step_budget {σ ε : Type} (pol : RetryPolicy)
    (op : Nat → σ → (Bool × Option ε) × σ) (elapsed : Nat → Nat)
    (fuel attempt : Nat) (s : σ) (le : Option ε)
    (hf : 0 < fuel) (hfalse : (op attempt s).1.1 = false)
    (hb : 0 < pol.maxRetryElapsed ∧ pol.maxRetryElapsed < elapsed attempt) :
    retryAux pol op elapsed fuel attempt s le =
      (.error .elapsedExceeded, (op attempt s).2, attempt + 1) := by
  obtain ⟨f, rfl⟩ : ∃ f, fuel = f + 1 := ⟨fuel - 1, by omega⟩
  rcases h : op attempt s with ⟨⟨done, err⟩, s'⟩
  rw [h] at hfalse
  simp only at hfalse
  subst hfalse
  simp only [retryAux]
  rw [h]
  cases err with
  | none => simp only []; rw [if_pos hb]
  | some e => simp only []; rw [if_pos hb]

/-- The last error among attempts attempt..attempt+k-1 of a pure op. -/
def lastErrSeg {e : Type} (op : Nat → Bool × Option e) (attempt : Nat) : Nat → Option e
  | 0 => none
  | k + 1 =>
    match (op (attempt + k)).2 with
    | some x => some x
    | none => lastErrSeg op attempt k

theorem lastErrSeg_front {e : Type} (op : Nat → Bool × Option e) :
    ∀ (k attempt : Nat),
      lastErrSeg op attempt (k + 1) =
        match lastErrSeg op (attempt + 1) k with
        | some x => some x
        | none => (op attempt).2 := by
  intro k
  induction k with
  | zero =>
    intro attempt
    simp only [lastErrSeg, Nat.add_zero]
    cases (op attempt).2 <;> rfl
  | succ m ih =>
    intro attempt
    show (match (op (attempt + (m + 1))).2 with
          | some x => some x
          | none => lastErrSeg op attempt (m + 1)) = _
    rw [ih attempt]
    show _ = (match (match (op (attempt + 1 + m)).2 with
            | some x => some x
            | none => lastErrSeg op (attempt + 1) m) with
          | some x => some x
          | none => (op attempt).2)
    rw [show attempt + 1 + m = attempt + (m + 1) by omega]
    cases (op (attempt + (m + 1))).2 with
    | none => rfl
    | some x => rfl

/-- errAcc over a pure lifted op equals the last-error function. -/
theorem errAcc_liftOp {e : Type} (op : Nat → Bool × Option e) :
    ∀ (k attempt : Nat) (le : Option e),
      errAcc (liftOp op) () attempt k le =
        match lastErrSeg op attempt k with
        | some x => some x
        | none => le := by
  intro k
  induction k with
  | zero => intro attempt le; rfl
  | succ m ih =>
    intro attempt le
    show errAcc (liftOp op) () (attempt + 1) m
        (match (op attempt).2 with
         | some x => some x
         | none => le) = _
    rw [ih (attempt + 1)]
    rw [lastErrSeg_front]
    cases h : lastErrSeg op (attempt + 1) m with
    | some x => rfl
    | none => cases (op attempt).2 <;> rfl

theorem lastOpErr_eq_seg {e : Type} (op : Nat → Bool × Option e) :
    ∀ n, lastOpErr op n = lastErrSeg op 0 n := by
  intro n
  induction n with
  | zero => rfl
  | succ m ih =>
    show (match (op m).2 with | some x => some x | none => lastOpErr op m) = _
    rw [ih]
    show _ = (match (op (0 + m)).2 with | some x => some x | none => lastErrSeg op 0 m)
    rw [Nat.zero_add]

/-- C1: contract of the retry engine. -/
theorem retryOperation_contract {e : Type} (pol : RetryPolicy)
    (op : Nat → Bool × Option e) (elapsed : Nat → Nat) :
    retryAttemptsPure pol op elapsed ≤ pol.retryCount ∧
    (∀ k, k < pol.retryCount →
      (∀ j, j < k → (op j).1 = false ∧ budgetOk pol elapsed j) →
      ((op k = (true, none) →
          retryOperationPure pol op elapsed = .ok () ∧
          retryAttemptsPure pol op elapsed = k + 1) ∧
       (∀ x, op k = (true, some x) →
          retryOperationPure pol op elapsed = .error (.fromOp x) ∧
          retryAttemptsPure pol op elapsed = k + 1))) ∧
    ((∀ j, j < pol.retryCount → (op j).1 = false ∧ budgetOk pol elapsed j) →
      ∀ x, lastOpErr op pol.retryCount = some x →
        retryOperationPure pol op elapsed = .error (.fromOp x) ∧
        retryAttemptsPure pol op elapsed = pol.retryCount) := by
  refine ⟨?_, ?_, ?_⟩
  · have := retryAux_attempts_le pol (liftOp op) elapsed pol.retryCount 0 () none
    simpa [retryAttemptsPure, retryAttempts, retryRun] using this
  · intro k hk hpre
    have hreach := retryAux_reach pol (liftOp op) elapsed k pol.retryCount 0 () none
      (by omega)
      (fun j hj => by
        refine ⟨?_, ?_, rfl⟩
        · have := (hpre j hj).1
          simpa [liftOp, Nat.zero_add] using this
        · simpa [Nat.zero_add] using (hpre j hj).2)
    constructor
    · intro hok
      have hstep := retryAux_step_ok pol (liftOp op) elapsed (pol.retryCount - k) k () ()
        (errAcc (liftOp op) () 0 k none) (by omega)
        (by simp [liftOp, hok])
      constructor
      · show (retryRun pol (liftOp op) elapsed ()).1 = _
        unfold retryRun
        rw [show (0 : Nat) + k = k from by omega] at hreach
        rw [hreach, hstep]
      · show (retryRun pol (liftOp op) elapsed ()).2.2 = _
        unfold retryRun
        rw [show (0 : Nat) + k = k from by omega] at hreach
        rw [hreach, hstep]
    · intro x hx
      have hstep := retryAux_step_err pol (liftOp op) elapsed (pol.retryCount - k) k () ()
        (errAcc (liftOp op) () 0 k none) x (by omega)
        (by simp [liftOp, hx])
      constructor
      · show (retryRun pol (liftOp op) elapsed ()).1 = _
        unfold retryRun
        rw [show (0 : Nat) + k = k from by omega] at hreach
        rw [hreach, hstep]
      · show (retryRun pol (liftOp op) elapsed ()).2.2 = _
        unfold retryRun
        rw [show (0 : Nat) + k = k from by omega] at hreach
        rw [hreach, hstep]
  · intro hpre x hx
    have hreach := retryAux_reach pol (liftOp op) elapsed pol.retryCount pol.retryCount 0 () none
      (le_refl _)
      (fun j hj => by
        refine ⟨?_, ?_, rfl⟩
        · have := (hpre j hj).1
          simpa [liftOp, Nat.zero_add] using this
        · simpa [Nat.zero_add] using (hpre j hj).2)
    rw [show pol.retryCount - pol.retryCount = 0 from by omega] at hreach
    rw [show (0 : Nat) + pol.retryCount = pol.retryCount from by omega] at hreach
    have hacc : errAcc (liftOp op) () 0 pol.retryCount none = some x := by
      rw [errAcc_liftOp]
      rw [← lastOpErr_eq_seg]
      rw [hx]
    constructor
    · show (retryRun pol (liftOp op) elapsed ()).1 = _
      unfold retryRun
      rw [hreach, hacc]
      rfl
    · show (retryRun pol (liftOp op) elapsed ()).2.2 = _
      unfold retryRun
      rw [hreach, hacc]
      rfl

/-- C5: wall-clock budget abort. -/
theorem retryOperation_budget {e : Type} (pol : RetryPolicy)
    (op : Nat → Bool × Option e) (elapsed : Nat → Nat) (k : Nat)
    (hremain : k + 1 < pol.retryCount)
    (hpre : ∀ j, j < k → (op j).1 = false ∧ budgetOk pol elapsed j)
    (hterm : (op k).1 = false)
    (hb : 0 < pol.maxRetryElapsed ∧ pol.maxRetryElapsed < elapsed k) :
    retryOperationPure pol op elapsed = .error .elapsedExceeded ∧
    retryAttemptsPure pol op elapsed = k + 1 := by
  have hreach := retryAux_reach pol (liftOp op) elapsed k pol.retryCount 0 () none
    (by omega)
    (fun j hj => by
      refine ⟨?_, ?_, rfl⟩
      · have := (hpre j hj).1
        simpa [liftOp, Nat.zero_add] using this
      · simpa [Nat.zero_add] using (hpre j hj).2)
  rw [show (0 : Nat) + k = k from by omega] at hreach
  have hstep := retryAux_step_budget pol (liftOp op) elapsed (pol.retryCount - k) k ()
    (errAcc (liftOp op) () 0 k none) (by omega)
    (by simpa [liftOp] using hterm) hb
  constructor
  · show (retryRun pol (liftOp op) elapsed ()).1 = _
    unfold retryRun
    rw [hreach, hstep]
  · show (retryRun pol (liftOp op) elapsed ()).2.2 = _
    unfold retryRun
    rw [hreach, hstep]

def c1WitnessOp : Nat → Bool × Option Nat :=
  fun n => if n = 0 then (false, some 7) else (true, none)

def zeroElapsed : Nat → Nat := fun _ => 0

/-- Witness for C1 at the default policy. -/
theorem retryOperation_contract_witness :
    retryOperationPure defaultRetryPolicy c1WitnessOp zeroElapsed = .ok () ∧
    retryAttemptsPure defaultRetryPolicy c1WitnessOp zeroElapsed = 2 ∧
    retryAttemptsPure defaultRetryPolicy c1WitnessOp zeroElapsed ≤ 3 := by
  have h := retryOperation_contract defaultRetryPolicy c1WitnessOp zeroElapsed
  have h2 := (h.2.1 1 (by decide) (by decide)).1 (by decide)
  exact ⟨h2.1, h2.2, h.1⟩

def c5WitnessOp : Nat → Bool × Option Nat := fun n => (false, some n)

def c5Elapsed : Nat → Nat := fun _ => 99999999999

/-- Witness for C5 at the default policy. -/
theorem retryOperation_budget_witness :
    retryOperationPure defaultRetryPolicy c5WitnessOp c5Elapsed = .error .elapsedExceeded ∧
    retryAttemptsPure defaultRetryPolicy c5WitnessOp c5Elapsed = 1 := by
  exact retryOperation_budget defaultRetryPolicy c5WitnessOp c5Elapsed 0
    (by decide) (by decide) (by decide) (by decide)

/-- A CreateTask attempt outcome the loop retries on. -/
def createRetryable : CreateOutcome → Prop
  | .reqErr => False
  | .netErr => True
  | .nilResp => True
  | .resp s _ => s ≠ 201 ∧ (500 ≤ s ∨ s = 429)

instance : (o : CreateOutcome) → Decidable (createRetryable o)
  | .reqErr => .isFalse id
  | .netErr => .isTrue trivial
  | .nilResp => .isTrue trivial
  | .resp s _b => inferInstanceAs (Decidable (s ≠ 201 ∧ (500 ≤ s ∨ s = 429)))

theorem createTaskOp_retryable (responses : Nat → CreateOutcome) (j : Nat)
    (p : Task × List MetricEvent) (h : createRetryable (responses j)) :
    (createTaskOp responses j p).1.1 = false ∧ (createTaskOp responses j p).2 = p := by
  obtain ⟨task, evts⟩ := p
  cases hr : responses j with
  | reqErr => rw [hr] at h; exact absurd h id
  | netErr => simp [createTaskOp, hr]
  | nilResp => simp [createTaskOp, hr]
  | resp st b =>
    rw [hr] at h
    obtain ⟨h1, h2⟩ := h
    simp only [createTaskOp]
    rw [hr]
    simp only []
    rw [if_neg h1, if_pos h2]
    exact ⟨rfl, rfl⟩

/-- C3 amended: a 201 response is terminal success; a nonzero parsed id
is written back; a zero parsed id or a decode failure leaves the task
unchanged (and the decode failure still returns success). -/
theorem createTask_201_spec (pol : RetryPolicy) (responses : Nat → CreateOutcome)
    (elapsed : Nat → Nat) (task : Task) (k : Nat) (body : CreateBody)
    (hk : k < pol.retryCount)
    (hpre : ∀ j, j < k → createRetryable (responses j) ∧ budgetOk pol elapsed j)
    (h201 : responses k = .resp 201 body) :
    (CreateTask pol responses elapsed task).result = .ok () ∧
    (body = .decodeFail → (CreateTask pol responses elapsed task).task = task) ∧
    (∀ i, body = .decoded i → i ≠ 0 →
      (CreateTask pol responses elapsed task).task = { task with id := i }) ∧
    (body = .decoded 0 → (CreateTask pol responses elapsed task).task = task) := by
  have hreach := retryAux_reach pol (createTaskOp responses) elapsed k pol.retryCount 0
    (task, []) none (by omega)
    (fun j hj => by
      have := createTaskOp_retryable responses (0 + j) (task, [])
        (by rw [Nat.zero_add]; exact (hpre j hj).1)
      exact ⟨this.1, by simpa [Nat.zero_add] using (hpre j hj).2, this.2⟩)
  rw [show (0 : Nat) + k = k from by omega] at hreach
  cases body with
  | decodeFail =>
    have hstep := retryAux_step_ok pol (createTaskOp responses) elapsed (pol.retryCount - k)
      k (task, []) (task, [.incAPIErrors]) (errAcc (createTaskOp responses) (task, []) 0 k none)
      (by omega) (by simp [createTaskOp, h201])
    have hres : (CreateTask pol responses elapsed task).result = .ok () := by
      show (retryRun pol (createTaskOp responses) elapsed (task, [])).1 = _
      unfold retryRun
      rw [hreach, hstep]
    have htask : (CreateTask pol responses elapsed task).task = task := by
      show (retryRun pol (createTaskOp responses) elapsed (task, [])).2.1.1 = _
      unfold retryRun
      rw [hreach, hstep]
    refine ⟨hres, fun _ => htask, ?_, ?_⟩
    · intro i hi
      cases hi
    · intro hb
      cases hb
  | decoded i =>
    by_cases hz : i = 0
    · subst hz
      have hstep := retryAux_step_ok pol (createTaskOp responses) elapsed (pol.retryCount - k)
        k (task, []) (task, []) (errAcc (createTaskOp responses) (task, []) 0 k none)
        (by omega) (by simp [createTaskOp, h201])
      have hres : (CreateTask pol responses elapsed task).result = .ok () := by
        show (retryRun pol (createTaskOp responses) elapsed (task, [])).1 = _
        unfold retryRun
        rw [hreach, hstep]
      have htask : (CreateTask pol responses elapsed task).task = task := by
        show (retryRun pol (createTaskOp responses) elapsed (task, [])).2.1.1 = _
        unfold retryRun
        rw [hreach, hstep]
      refine ⟨hres, ?_, ?_, fun _ => htask⟩
      · intro hb
        cases hb
      · intro j hj hne
        injection hj with hj
        exact absurd hj.symm hne
    · have hstep := retryAux_step_ok pol (createTaskOp responses) elapsed (pol.retryCount - k)
        k (task, []) ({ task with id := i }, [])
        (errAcc (createTaskOp responses) (task, []) 0 k none)
        (by omega) (by simp [createTaskOp, h201, hz])
      have hres : (CreateTask pol responses elapsed task).result = .ok () := by
        show (retryRun pol (createTaskOp responses) elapsed (task, [])).1 = _
        unfold retryRun
        rw [hreach, hstep]
      have htask : (CreateTask pol responses elapsed task).task = { task with id := i } := by
        show (retryRun pol (createTaskOp responses) elapsed (task, [])).2.1.1 = _
        unfold retryRun
        rw [hreach, hstep]
      refine ⟨hres, ?_, ?_, ?_⟩
      · intro hb
        cases hb
      · intro j hj hne
        injection hj with hj
        subst hj
        exact htask
      · intro hb
        injection hb with hb
        exact absurd hb hz

def fiveMinutes : Int := 300000000000

/-- C4: a warm cache hit returns a value-equal, allocation-fresh copy
with no network traffic, and writing through the copy cannot change the
cached snapshot. -/
theorem getTasks_cache_hit (pol : RetryPolicy) (responses : Nat → GetOutcome)
    (now : Int) (cache : TaskCache) (limit : Int) (cacheRef freshRef : Nat)
    (_hexp : cache.expiration = fiveMinutes)
    (hne : cache.tasks ≠ [])
    (hage : now - cache.updatedAt < cache.expiration)
    (href : freshRef ≠ cacheRef) :
    (GetTasks pol responses now cache limit).result = .ok cache.tasks ∧
    (GetTasks pol responses now cache limit).netCalls = 0 ∧
    (GetTasks pol responses now cache limit).cache = cache ∧
    (goCopySlice { ref := cacheRef, data := cache.tasks } freshRef).data = cache.tasks ∧
    (goCopySlice { ref := cacheRef, data := cache.tasks } freshRef).ref ≠ cacheRef ∧
    (∀ (heap : Nat → List Task) (xs : List Task),
      heap cacheRef = cache.tasks →
      heapWrite heap (goCopySlice { ref := cacheRef, data := cache.tasks } freshRef).ref
        xs cacheRef = cache.tasks) := by
  have hcond : cache.tasks ≠ [] ∧ now - cache.updatedAt < cache.expiration := ⟨hne, hage⟩
  refine ⟨?_, ?_, ?_, rfl, href, ?_⟩
  · unfold GetTasks
    rw [if_pos hcond]
  · unfold GetTasks
    rw [if_pos hcond]
  · unfold GetTasks
    rw [if_pos hcond]
  · intro heap xs hheap
    show (if cacheRef = freshRef then xs else heap cacheRef) = cache.tasks
    rw [if_neg (fun hh => href hh.symm), hheap]

/-- C7 amended: when the first call is a cache miss that fetches
successfully and decodes a non-empty list, a second call within the
expiration window of the first issues no network request and returns the
same snapshot. -/
theorem getTasks_refresh_window (pol : RetryPolicy) (resp1 resp2 : Nat → GetOutcome)
    (t1 t2 : Int) (cache : TaskCache) (limit1 limit2 : Int) (ts : List Task)
    (hmiss : ¬(cache.tasks ≠ [] ∧ t1 - cache.updatedAt < cache.expiration))
    (h1 : (GetTasks pol resp1 t1 cache limit1).result = .ok ts)
    (hne : ts ≠ [])
    (hage : t2 - t1 < cache.expiration) :
    (GetTasks pol resp2 t2 (GetTasks pol resp1 t1 cache limit1).cache limit2).netCalls = 0 ∧
    (GetTasks pol resp2 t2 (GetTasks pol resp1 t1 cache limit1).cache limit2).result =
      .ok ts := by
  have hc : (GetTasks pol resp1 t1 cache limit1).cache =
      { tasks := ts, updatedAt := t1, expiration := cache.expiration } := by
    unfold GetTasks at h1 ⊢
    rw [if_neg hmiss] at h1 ⊢
    rcases hf : getTasksFetch pol resp1 pol.retryCount 0 0 none none with ⟨out, n⟩
    rw [hf] at h1
    cases out with
    | failure e => simp only [] at h1; cases h1
    | success b =>
      cases b with
      | decodeFail => simp only [] at h1; cases h1
      | decoded ts2 =>
        simp only [] at h1 ⊢
        injection h1 with h1
        rw [h1]
  rw [hc]
  have hcond : ({ tasks := ts, updatedAt := t1, expiration := cache.expiration } :
      TaskCache).tasks ≠ [] ∧
      t2 - ({ tasks := ts, updatedAt := t1, expiration := cache.expiration } :
        TaskCache).updatedAt <
        ({ tasks := ts, updatedAt := t1, expiration := cache.expiration } :
          TaskCache).expiration := ⟨hne, hage⟩
  constructor
  · unfold GetTasks
    rw [if_pos hcond]
  · unfold GetTasks
    rw [if_pos hcond]

/-- C8: the cache is replaced, whole snapshot and timestamp together,
exactly by a GetTasks call whose fetch broke on a 200 and whose body
decoded; every error path leaves it untouched, and the write operations
never touch it. -/
theorem cache_update_invariant (pol : RetryPolicy) :
    (∀ (responses : Nat → GetOutcome) (now : Int) (cache : TaskCache) (limit : Int),
      (GetTasks pol responses now cache limit).cache = cache ∨
      ∃ ts n, getTasksFetch pol responses pol.retryCount 0 0 none none =
          (.success (.decoded ts), n) ∧
        (GetTasks pol responses now cache limit).cache =
          { tasks := ts, updatedAt := now, expiration := cache.expiration } ∧
        (GetTasks pol responses now cache limit).result = .ok ts) ∧
    (∀ (responses : Nat → GetOutcome) (now : Int) (cache : TaskCache) (limit : Int) (e : ApiErr),
      (GetTasks pol responses now cache limit).result = .error e →
      (GetTasks pol responses now cache limit).cache = cache) ∧
    (∀ (responses : Nat → CreateOutcome) (elapsed : Nat → Nat) (task : Task) (cache : TaskCache),
      (CreateTaskClient pol responses elapsed task cache).2 = cache) ∧
    (∀ (responses : Nat → UpdateOutcome) (elapsed : Nat → Nat) (task : Task) (cache : TaskCache),
      (UpdateTaskClient pol responses elapsed task cache).2 = cache) ∧
    (∀ (responses : Nat → UploadOutcome) (elapsed : Nat → Nat) (taskID : Int)
        (att : Attachment) (data : List Nat) (cache : TaskCache),
      (UploadAttachmentClient pol responses elapsed taskID att data cache).2 = cache) ∧
    (∀ (responses : Nat → CommentOutcome) (elapsed : Nat → Nat) (taskID : Int)
        (comment : Comment) (cache : TaskCache),
      (AddCommentClient pol responses elapsed taskID comment cache).2 = cache) := by
  refine ⟨?_, ?_, fun _ _ _ _ => rfl, fun _ _ _ _ => rfl, fun _ _ _ _ _ _ => rfl,
    fun _ _ _ _ _ => rfl⟩
  · intro responses now cache limit
    unfold GetTasks
    by_cases hcond : cache.tasks ≠ [] ∧ now - cache.updatedAt < cache.expiration
    · rw [if_pos hcond]
      exact .inl rfl
    · rw [if_neg hcond]
      rcases hf : getTasksFetch pol responses pol.retryCount 0 0 none none with ⟨out, n⟩
      cases out with
      | failure e => exact .inl rfl
      | success b =>
        cases b with
        | decodeFail => exact .inl rfl
        | decoded ts => exact .inr ⟨ts, n, rfl, rfl, rfl⟩
  · intro responses now cache limit e herr
    unfold GetTasks at herr ⊢
    by_cases hcond : cache.tasks ≠ [] ∧ now - cache.updatedAt < cache.expiration
    · rw [if_pos hcond]
    · rw [if_neg hcond] at herr ⊢
      rcases hf : getTasksFetch pol responses pol.retryCount 0 0 none none with ⟨out, n⟩
      rw [hf] at herr
      cases out with
      | failure e2 => rfl
      | success b =>
        cases b with
        | decodeFail => rfl
        | decoded ts =>
          simp only [] at herr
          cases herr

theorem retryAux_state_const {σ ε : Type} (pol : RetryPolicy)
    (op : Nat → σ → (Bool × Option ε) × σ) (elapsed : Nat → Nat)
    (hop : ∀ i s, (op i s).2 = s) :
    ∀ (fuel attempt : Nat) (s : σ) (le : Option ε),
      (retryAux pol op elapsed fuel attempt s le).2.1 = s := by
  intro fuel
  induction fuel with
  | zero => intro attempt s le; rfl
  | succ n ih =>
    intro attempt s le
    simp only [retryAux]
    rcases h : op attempt s with ⟨⟨done, err⟩, s'⟩
    have hs : s' = s := by
      have := hop attempt s
      rw [h] at this
      exact this
    cases done <;> cases err <;> simp only []
    · split
      · exact hs
      · rw [hs]
        exact ih (attempt + 1) s le
    · split
      · exact hs
      · rw [hs]
        exact ih (attempt + 1) s _
    · exact hs
    · exact hs

theorem updateTaskOp_state (responses : Nat → UpdateOutcome) (i : Nat)
    (evts : List MetricEvent) : (updateTaskOp responses i evts).2 = evts := by
  cases h : responses i with
  | reqErr => simp [updateTaskOp, h]
  | netErr => simp [updateTaskOp, h]
  | resp st =>
    simp only [updateTaskOp]
    rw [h]
    simp only []
    split
    · rfl
    · split
      · rfl
      · rfl

theorem uploadAttachmentOp_state (responses : Nat → UploadOutcome) (i : Nat)
    (evts : List MetricEvent) : (uploadAttachmentOp responses i evts).2 = evts := by
  cases h : responses i with
  | buildErr => simp [uploadAttachmentOp, h]
  | reqErr => simp [uploadAttachmentOp, h]
  | netErr => simp [uploadAttachmentOp, h]
  | nilResp => simp [uploadAttachmentOp, h]
  | resp st =>
    simp only [uploadAttachmentOp]
    rw [h]
    simp only []
    split
    · rfl
    · split
      · rfl
      · rfl

theorem addCommentOp_state (responses : Nat → CommentOutcome) (i : Nat)
    (evts : List MetricEvent) : (addCommentOp responses i evts).2 = evts := by
  cases h : responses i with
  | reqErr => simp [addCommentOp, h]
  | netErr => simp [addCommentOp, h]
  | nilResp => simp [addCommentOp, h]
  | resp st =>
    simp only [addCommentOp]
    rw [h]
    simp only []
    split
    · rfl
    · split
      · rfl
      · rfl

/-- Along any run, the CreateTask closure only ever appends decode-error
events to the metric trace. -/
theorem retryAux_create_events (pol : RetryPolicy) (responses : Nat → CreateOutcome)
    (elapsed : Nat → Nat) :
    ∀ (fuel attempt : Nat) (task : Task) (evts : List MetricEvent) (le : Option ApiErr),
      ∃ m, ((retryAux pol (createTaskOp responses) elapsed fuel attempt
        (task, evts) le).2.1).2 = evts ++ List.replicate m .incAPIErrors := by
  intro fuel
  induction fuel with
  | zero =>
    intro attempt task evts le
    exact ⟨0, by simp [retryAux]⟩
  | succ n ih =>
    intro attempt task evts le
    simp only [retryAux]
    cases hr : responses attempt with
    | reqErr =>
      refine ⟨0, ?_⟩
      simp only [createTaskOp]
      rw [hr]
      simp
    | netErr =>
      simp only [createTaskOp]
      rw [hr]
      simp only []
      split
      · exact ⟨0, by simp⟩
      · exact ih (attempt + 1) task evts _
    | nilResp =>
      simp only [createTaskOp]
      rw [hr]
      simp only []
      split
      · exact ⟨0, by simp⟩
      · exact ih (attempt + 1) task evts _
    | resp st body =>
      simp only [createTaskOp]
      rw [hr]
      simp only []
      by_cases h201 : st = 201
      · rw [if_pos h201]
        cases body with
        | decodeFail =>
          refine ⟨1, ?_⟩
          simp
        | decoded i =>
          simp only []
          by_cases hz : i ≠ 0
          · rw [if_pos hz]
            exact ⟨0, by simp⟩
          · rw [if_neg hz]
            exact ⟨0, by simp⟩
      · rw [if_neg h201]
        by_cases hretry : 500 ≤ st ∨ st = 429
        · rw [if_pos hretry]
          simp only []
          split
          · exact ⟨0, by simp⟩
          · exact ih (attempt + 1) task evts _
        · rw [if_neg hretry]
          exact ⟨0, by simp⟩

/-- C6 amended: only GetTasks updates the request counter and the
latency metric (once each per call); the write operations never do —
CreateTask touches only the error counter (once per 201 attempt whose
body fails to decode), and UpdateTask, UploadAttachment and AddComment
emit no metric events at all. -/
theorem metrics_per_call (pol : RetryPolicy) :
    (∀ (responses : Nat → GetOutcome) (now : Int) (cache : TaskCache) (limit : Int),
      countEvent .incAPIRequests (GetTasks pol responses now cache limit).events = 1 ∧
      countEvent .updateLatency (GetTasks pol responses now cache limit).events = 1) ∧
    (∀ (responses : Nat → CreateOutcome) (elapsed : Nat → Nat) (task : Task),
      countEvent .incAPIRequests (CreateTask pol responses elapsed task).events = 0 ∧
      countEvent .updateLatency (CreateTask pol responses elapsed task).events = 0) ∧
    (∀ (responses : Nat → UpdateOutcome) (elapsed : Nat → Nat) (task : Task),
      (UpdateTask pol responses elapsed task).events = []) ∧
    (∀ (responses : Nat → UploadOutcome) (elapsed : Nat → Nat) (taskID : Int)
        (att : Attachment) (data : List Nat),
      (UploadAttachment pol responses elapsed taskID att data).events = []) ∧
    (∀ (responses : Nat → CommentOutcome) (elapsed : Nat → Nat) (taskID : Int)
        (comment : Comment),
      (AddComment pol responses elapsed taskID comment).events = []) := by
  refine ⟨?_, ?_, ?_, ?_, ?_⟩
  · intro responses now cache limit
    unfold GetTasks
    by_cases hcond : cache.tasks ≠ [] ∧ now - cache.updatedAt < cache.expiration
    · rw [if_pos hcond]
      exact ⟨rfl, rfl⟩
    · rw [if_neg hcond]
      rcases hf : getTasksFetch pol responses pol.retryCount 0 0 none none with ⟨out, n⟩
      cases out with
      | failure e => exact ⟨rfl, rfl⟩
      | success b => cases b <;> exact ⟨rfl, rfl⟩
  · intro responses elapsed task
    obtain ⟨m, hm⟩ := retryAux_create_events pol responses elapsed pol.retryCount 0 task [] none
    have hev : (CreateTask pol responses elapsed task).events =
        List.replicate m .incAPIErrors := by
      show ((retryRun pol (createTaskOp responses) elapsed (task, [])).2.1).2 = _
      unfold retryRun
      rw [hm]
      simp
    rw [hev]
    constructor
    · unfold countEvent
      have hnil : List.filter (fun x => decide (x = MetricEvent.incAPIRequests))
          (List.replicate m MetricEvent.incAPIErrors) = [] := by
        rw [List.filter_eq_nil_iff]
        intro a ha
        rw [List.eq_of_mem_replicate ha]
        simp
      rw [hnil]
      rfl
    · unfold countEvent
      have hnil : List.filter (fun x => decide (x = MetricEvent.updateLatency))
          (List.replicate m MetricEvent.incAPIErrors) = [] := by
        rw [List.filter_eq_nil_iff]
        intro a ha
        rw [List.eq_of_mem_replicate ha]
        simp
      rw [hnil]
      rfl
  · intro responses elapsed task
    show ((retryRun pol (updateTaskOp responses) elapsed []).2.1) = []
    unfold retryRun
    exact retryAux_state_const pol _ elapsed (updateTaskOp_state responses) _ 0 [] none
  · intro responses elapsed taskID att data
    show ((retryRun pol (uploadAttachmentOp responses) elapsed []).2.1) = []
    unfold retryRun
    exact retryAux_state_const pol _ elapsed (uploadAttachmentOp_state responses) _ 0 [] none
  · intro responses elapsed taskID comment
    show ((retryRun pol (addCommentOp responses) elapsed []).2.1) = []
    unfold retryRun
    exact retryAux_state_const pol _ elapsed (addCommentOp_state responses) _ 0 [] none

theorem notifyError_covers (v : TaskVerification) (users : List User) :
    Notif.toSender v.originalSender.telegramID ∈ notifyError v users ∧
    ∀ u ∈ users, u.role = roleAdmin → Notif.toAdmin u.telegramID ∈ notifyError v users := by
  constructor
  · exact List.mem_cons_self _ _
  · intro u hu hrole
    unfold notifyError
    refine List.mem_cons.mpr (.inr ?_)
    refine List.mem_map.mpr ⟨u, ?_, rfl⟩
    refine List.mem_filter.mpr ⟨hu, ?_⟩
    simp [hrole]

/-- C2: the two-phase reconciliation.  On the first failed check the
loop creates exactly the marker-suffixed copy of the original task;
if that corrective create succeeds it re-uploads a held image under the
freshly generated `retry_<unix>` identifier, and when the corrective
calls succeed it bumps the retry counter to 1, replaces the tracked task
by the created one and schedules exactly one recheck; on the second
failed check nothing is re-created and the sender plus every
administrator are notified. -/
theorem handleVerificationFailure_spec (env : VerifyEnv) (v : TaskVerification)
    (reason : FailReason) :
    (v.retryCount = 0 →
      (handleVerificationFailure env v reason).created = [correctiveTask v] ∧
      (correctiveTask v).title = v.originalTask.title ++ recoveredSuffix ∧
      { v.originalTask with title := (correctiveTask v).title } = correctiveTask v ∧
      ((CreateTask env.pol env.createResponses env.createElapsed (correctiveTask v)).result =
          .ok () →
        (v.hasImage = true →
          (handleVerificationFailure env v reason).uploaded =
            [((CreateTask env.pol env.createResponses env.createElapsed
                (correctiveTask v)).task.id, retryAttachment env.nowUnix)] ∧
          (retryAttachment env.nowUnix).id = strBytes "retry_" ++ intBytes env.nowUnix) ∧
        ((v.hasImage = true →
            (UploadAttachment env.pol env.uploadResponses env.uploadElapsed
              (CreateTask env.pol env.createResponses env.createElapsed
                (correctiveTask v)).task.id
              (retryAttachment env.nowUnix) v.imageData).result = .ok ()) →
          (handleVerificationFailure env v reason).verification.retryCount = 1 ∧
          (handleVerificationFailure env v reason).verification.originalTask =
            (CreateTask env.pol env.createResponses env.createElapsed
              (correctiveTask v)).task ∧
          (handleVerificationFailure env v reason).scheduled = 1 ∧
          (handleVerificationFailure env v reason).notifs = []))) ∧
    (v.retryCount = 1 →
      (handleVerificationFailure env v reason).created = [] ∧
      (handleVerificationFailure env v reason).uploaded = [] ∧
      (handleVerificationFailure env v reason).scheduled = 0 ∧
      Notif.toSender v.originalSender.telegramID ∈
        (handleVerificationFailure env v reason).notifs ∧
      ∀ u ∈ env.users, u.role = roleAdmin →
        Notif.toAdmin u.telegramID ∈ (handleVerificationFailure env v reason).notifs) := by
  constructor
  · intro h0
    unfold handleVerificationFailure
    rw [if_pos h0]
    simp only []
    cases hcr : (CreateTask env.pol env.createResponses env.createElapsed
        (correctiveTask v)).result with
    | error e =>
      refine ⟨rfl, rfl, rfl, ?_⟩
      intro hok
      cases hok
    | ok u =>
      cases u
      simp only []
      cases hi : v.hasImage with
      | false =>
        rw [if_neg Bool.false_ne_true]
        refine ⟨rfl, rfl, rfl, ?_⟩
        intro _
        constructor
        · intro habs
          exact absurd habs Bool.false_ne_true
        · intro _
          refine ⟨?_, rfl, rfl, rfl⟩
          show v.retryCount + 1 = 1
          omega
      | true =>
        rw [if_pos rfl]
        cases hup : (UploadAttachment env.pol env.uploadResponses env.uploadElapsed
            (CreateTask env.pol env.createResponses env.createElapsed
              (correctiveTask v)).task.id
            (retryAttachment env.nowUnix) v.imageData).result with
        | error e =>
          simp only []
          refine ⟨trivial, rfl, rfl, ?_⟩
          intro _
          refine ⟨fun _ => ⟨trivial, rfl⟩, ?_⟩
          intro hupok
          exact absurd (hupok trivial) (fun hh => by cases hh)
        | ok u2 =>
          cases u2
          simp only []
          refine ⟨trivial, rfl, rfl, ?_⟩
          intro _
          refine ⟨fun _ => ⟨trivial, rfl⟩, fun _ => ⟨?_, trivial, trivial, trivial⟩⟩
          show v.retryCount + 1 = 1
          omega
  · intro h1
    unfold handleVerificationFailure
    rw [if_neg (by omega)]
    have hcov := notifyError_covers v env.users
    exact ⟨rfl, rfl, rfl, hcov.1, hcov.2⟩

/-- C10: a fetch error inside the verification check goes straight to
the sender-and-administrators notification; no corrective create, no
upload, no rescheduled check — even with the retry counter still at 0. -/
theorem verifyTask_fetch_error (env : VerifyEnv) (v : TaskVerification) (e : ApiErr)
    (hfetch : (GetTasks env.pol env.getResponses env.now env.cache 100).result = .error e) :
    (verifyTask env v).created = [] ∧
    (verifyTask env v).uploaded = [] ∧
    (verifyTask env v).scheduled = 0 ∧
    (verifyTask env v).notifs = notifyError v env.users ∧
    Notif.toSender v.originalSender.telegramID ∈ (verifyTask env v).notifs ∧
    (∀ u ∈ env.users, u.role = roleAdmin →
      Notif.toAdmin u.telegramID ∈ (verifyTask env v).notifs) := by
  have hv : verifyTask env v =
      { created := [], uploaded := [], scheduled := 0,
        notifs := notifyError v env.users, verification := v } := by
    unfold verifyTask
    rw [hfetch]
  rw [hv]
  have hcov := notifyError_covers v env.users
  exact ⟨rfl, rfl, rfl, rfl, hcov.1, hcov.2⟩

/-- C9 amended: the truncation boundary counts bytes.  A non-empty
description of at most 200 bytes is included unchanged with no marker; a
longer one is cut to its first 200 bytes and followed by `...`. -/
theorem formatTaskNotification_bytes (renderDate : Int → GoStr) (task : Task)
    (hne : task.description ≠ []) :
    (task.description.length ≤ 200 →
      formatTaskNotification renderDate task =
        notificationHeader renderDate task ++ strBytes "\n\n📝 " ++ task.description) ∧
    (200 < task.description.length →
      formatTaskNotification renderDate task =
        notificationHeader renderDate task ++ strBytes "\n\n📝 " ++
          task.description.take 200 ++ strBytes "...") := by
  constructor
  · intro hle
    have hgt : ¬(200 < task.description.length) := by omega
    unfold formatTaskNotification
    rw [if_pos hne]
    simp only []
    rw [if_neg hgt, if_neg hgt]
    rw [List.take_length]
  · intro hgt
    unfold formatTaskNotification
    rw [if_pos hne]
    simp only []
    rw [if_pos hgt, if_pos hgt]

/-! ## Concrete fixtures for witnesses and counterexamples -/

def baseTask : Task where
  id := 0
  boardID := 0
  title := []
  description := []
  status := []
  done := false
  parentID := 0
  createdAt := 0
  updatedAt := 0
  dueDate := 0
  priority := 0
  assignee := []
  labels := []
  comments := []
  attachments := []

def baseUser : User where
  telegramID := 10
  username := []
  firstName := []
  lastName := []
  position := []
  buildingAddress := []
  roomNumber := []
  address := []
  role := roleUser
  approved := true
  addressChange := false

def adminUser : User := { baseUser with telegramID := 99, role := roleAdmin }

def emptyCache : TaskCache where
  tasks := []
  updatedAt := 0
  expiration := fiveMinutes

def warmCache : TaskCache where
  tasks := [baseTask]
  updatedAt := 0
  expiration := fiveMinutes

/-! ## C3: counterexample and witness -/

def c3Task : Task := { baseTask with id := 5 }

def c3Responses : Nat → CreateOutcome := fun _ => .resp 201 (.decoded 0)

/-- C3 counterexample: a 201 whose well-formed envelope decodes to id 0
returns success but leaves the caller's identifier at its old value 5,
which differs from the parsed id. -/
theorem createTask_zero_id_cex :
    (CreateTask defaultRetryPolicy c3Responses zeroElapsed c3Task).result = .ok () ∧
    (CreateTask defaultRetryPolicy c3Responses zeroElapsed c3Task).task.id = 5 ∧
    (5 : Int) ≠ 0 :=
  ⟨rfl, rfl, by decide⟩

def c3wResponses : Nat → CreateOutcome :=
  fun n => if n = 0 then .resp 500 (.decoded 0) else .resp 201 (.decoded 777)

/-- Witness for the amended C3: a 500 then a 201 with id 777. -/
theorem createTask_201_spec_witness :
    (CreateTask defaultRetryPolicy c3wResponses zeroElapsed baseTask).result = .ok () ∧
    (CreateTask defaultRetryPolicy c3wResponses zeroElapsed baseTask).task =
      { baseTask with id := 777 } := by
  have h := createTask_201_spec defaultRetryPolicy c3wResponses zeroElapsed baseTask 1
    (.decoded 777) (by decide) (by decide) rfl
  exact ⟨h.1, h.2.2.1 777 rfl (by decide)⟩

/-! ## C4: witness -/

def c4Responses : Nat → GetOutcome := fun _ => .netErr

/-- Witness for C4 on a warm one-task cache. -/
theorem getTasks_cache_hit_witness :
    (GetTasks defaultRetryPolicy c4Responses 10 warmCache 100).result = .ok [baseTask] ∧
    (GetTasks defaultRetryPolicy c4Responses 10 warmCache 100).netCalls = 0 := by
  have h := getTasks_cache_hit defaultRetryPolicy c4Responses 10 warmCache 100 0 1
    rfl (by decide) (by decide) (by decide)
  exact ⟨h.1, h.2.1⟩

/-! ## C7: counterexample and witness -/

def c7RespEmpty : Nat → GetOutcome := fun _ => .resp 200 (.decoded [])

def c7RespOne : Nat → GetOutcome := fun _ => .resp 200 (.decoded [baseTask])

/-- C7 counterexample: two ways a second call right after a successful
first call still hits the network — the first call decoded an empty
snapshot (left), or the first call was a cache hit on an almost-expired
snapshot (right). -/
theorem getTasks_second_call_cex :
    ((GetTasks defaultRetryPolicy c7RespEmpty 1000 emptyCache 100).result = .ok [] ∧
     (1001 : Int) - 1000 < emptyCache.expiration ∧
     (GetTasks defaultRetryPolicy c7RespEmpty 1001
       (GetTasks defaultRetryPolicy c7RespEmpty 1000 emptyCache 100).cache 100).netCalls ≠ 0) ∧
    ((GetTasks defaultRetryPolicy c7RespOne 299999999999 warmCache 100).result =
        .ok [baseTask] ∧
     (300000000001 : Int) - 299999999999 < warmCache.expiration ∧
     (GetTasks defaultRetryPolicy c7RespOne 300000000001
       (GetTasks defaultRetryPolicy c7RespOne 299999999999 warmCache 100).cache
       100).netCalls ≠ 0) :=
  ⟨⟨rfl, by decide, by decide⟩, ⟨rfl, by decide, by decide⟩⟩

/-- Witness for the amended C7: a miss-then-refresh first call makes the
second call a pure cache hit. -/
theorem getTasks_refresh_window_witness :
    (GetTasks defaultRetryPolicy c7RespOne 1001
      (GetTasks defaultRetryPolicy c7RespOne 1000 emptyCache 100).cache 100).netCalls = 0 := by
  exact (getTasks_refresh_window defaultRetryPolicy c7RespOne c7RespOne 1000 1001 emptyCache
    100 100 [baseTask] (by decide) rfl (by decide) (by decide)).1

/-! ## C8: witness -/

/-- Witness for C8: a transport-failing GetTasks leaves the cache as it
was. -/
theorem cache_update_invariant_witness :
    (GetTasks defaultRetryPolicy c4Responses 1000 emptyCache 100).cache = emptyCache := by
  exact (cache_update_invariant defaultRetryPolicy).2.1 c4Responses 1000 emptyCache 100
    .transport rfl

/-! ## C6: counterexample -/

def c6Responses : Nat → CreateOutcome := fun _ => .resp 201 (.decoded 7)

/-- C6 counterexample: a successful CreateTask call emits no
request-count and no latency update at all. -/
theorem metrics_per_call_cex :
    ¬(countEvent .incAPIRequests
        (CreateTask defaultRetryPolicy c6Responses zeroElapsed baseTask).events = 1 ∧
      countEvent .updateLatency
        (CreateTask defaultRetryPolicy c6Responses zeroElapsed baseTask).events = 1) := by
  decide

/-! ## C9: counterexample and witness -/

def cyrDesc : GoStr := (List.replicate 101 [208, 176]).flatten

def c9Task : Task := { baseTask with description := cyrDesc }

def c9Render : Int → GoStr := fun _ => []

set_option maxRecDepth 8000

/-- C9 counterexample: a 101-character (202-byte) Cyrillic description
has at most 200 characters, yet the formatter cuts it at 200 bytes and
appends the marker, so the claim read over characters fails. -/
theorem formatTaskNotification_char_cex : ¬ descriptionClaimHolds c9Render c9Task := by
  intro h
  have h1 := (h (by decide)).1 (by decide)
  exact absurd h1 (by decide)

def c9wTask : Task := { baseTask with description := List.replicate 10 97 }

/-- Witness for the amended C9 on a 10-byte description. -/
theorem formatTaskNotification_bytes_witness :
    formatTaskNotification c9Render c9wTask =
      notificationHeader c9Render c9wTask ++ strBytes "\n\n📝 " ++ c9wTask.description := by
  exact (formatTaskNotification_bytes c9Render c9wTask (by decide)).1 (by decide)

/-! ## C2 and C10: witnesses -/

def witnessVerification : TaskVerification where
  originalTask := { baseTask with id := 1 }
  originalSender := baseUser
  originalContent := strBytes "hello"
  hasImage := true
  imageData := [1, 2]
  retryCount := 0
  createdAt := 0

def witnessEnv : VerifyEnv where
  pol := defaultRetryPolicy
  getResponses := fun _ => .netErr
  now := 1000
  cache := emptyCache
  createResponses := fun _ => .resp 201 (.decoded 42)
  createElapsed := fun _ => 0
  uploadResponses := fun _ => .resp 201
  uploadElapsed := fun _ => 0
  nowUnix := 1700000000
  users := [baseUser, adminUser]

/-- Witness for C2: a first-failure step whose corrective create and
upload succeed. -/
theorem handleVerificationFailure_spec_witness :
    (handleVerificationFailure witnessEnv witnessVerification .contentMismatch).created =
      [correctiveTask witnessVerification] ∧
    (handleVerificationFailure witnessEnv witnessVerification
      .contentMismatch).verification.retryCount = 1 ∧
    (handleVerificationFailure witnessEnv witnessVerification .contentMismatch).scheduled = 1 := by
  have h := handleVerificationFailure_spec witnessEnv witnessVerification .contentMismatch
  have h0 := h.1 rfl
  have h2 := (h0.2.2.2 rfl).2 (fun _ => rfl)
  exact ⟨h0.1, h2.1, h2.2.2.1⟩

/-- Witness for C10: a transport error in the check notifies and stops. -/
theorem verifyTask_fetch_error_witness :
    (verifyTask witnessEnv witnessVerification).created = [] ∧
    (verifyTask witnessEnv witnessVerification).scheduled = 0 ∧
    Notif.toSender 10 ∈ (verifyTask witnessEnv witnessVerification).notifs := by
  have h := verifyTask_fetch_error witnessEnv witnessVerification .transport rfl
  exact ⟨h.1, h.2.2.1, h.2.2.2.2.1⟩

end YougileBot
